import Mathlib

/-!
Verification development for the vcluster cluster-api infrastructure
provider (loft-sh/cluster-api-provider-vcluster).

The Go sources are shallowly embedded: pure decision logic becomes Lean
functions, and the reconciler's interactions with the Kubernetes API,
the Helm client and the nested control plane are modelled by explicit
environment records whose fields give the outcome of each external call.
Effects (Helm invocations, secret writes, finalizer updates) are
returned in explicit logs so that "exactly once" style properties can
be stated.

Naming follows the Go sources: the active controller is the
GenericReconciler (controllers/vcluster_controller.go of the current
tree, wired by controllers/register.go); the legacy VClusterReconciler
variant (an older controllers/vcluster_controller.go) is embedded with
a `legacy` prefixed name where the two differ.
-/

namespace CAPVC

/-- corev1.ConditionStatus restricted to the three values used by the
controller (True / False / Unknown). -/
inductive ConditionStatus where
  | isTrue
  | isFalse
  | unknown
deriving DecidableEq, Repr

/-- Condition severity, as in cluster-api: Error, Warning, Info and the
empty severity. -/
inductive ConditionSeverity where
  | error
  | warning
  | info
  | noSeverity
deriving DecidableEq, Repr

/-- A status condition record. Modelled from the spec: the Condition
type of the api package (its declaration file is not part of the
provided tree): a named record with type, status (True/False/Unknown),
severity (Error/Warning/Info), reason and message.
lastTransitionTime is irrelevant for the verified properties and
omitted. -/
structure Condition where
  condType : String
  status : ConditionStatus
  severity : ConditionSeverity
  reason : String
  message : String
deriving DecidableEq, Repr

/-- Modelled from the spec: the condition type constants of the api
package (declaration file not in the provided tree). Only their
distinctness matters to the verified properties. -/
def HelmChartDeployedCondition : String := "HelmChartDeployed"

/-- Modelled from the spec: see HelmChartDeployedCondition. -/
def KubeconfigReadyCondition : String := "KubeconfigReady"

/-- Modelled from the spec: see HelmChartDeployedCondition. -/
def ControlPlaneInitializedCondition : String := "ControlPlaneInitialized"

/-- Modelled from the spec: see HelmChartDeployedCondition. -/
def InfrastructureClusterSyncedCondition : String := "InfrastructureClusterSynced"

/-- Modelled from the spec: conditions.Get of pkg/util/conditions (not
in the provided tree) returns the condition with the given type, if
present. -/
def conditionsGet (conds : List Condition) (t : String) : Option Condition :=
  conds.find? (fun c => c.condType = t)

/-- Modelled from the spec: conditions.IsTrue of pkg/util/conditions
(not in the provided tree): the condition of the given type exists and
its status is True. -/
def conditionsIsTrue (conds : List Condition) (t : String) : Bool :=
  match conditionsGet conds t with
  | some c => c.status = ConditionStatus.isTrue
  | none => false

/-- Modelled from the spec: conditions.Set of pkg/util/conditions (not
in the provided tree) overwrites the condition with the same type, or
appends the new condition. -/
def conditionsSet (conds : List Condition) (c : Condition) : List Condition :=
  if conds.any (fun x => x.condType = c.condType) then
    conds.map (fun x => if x.condType = c.condType then c else x)
  else
    conds ++ [c]

/-- Modelled from the spec: conditions.MarkTrue of pkg/util/conditions
(not in the provided tree) sets a True condition of the given type. -/
def conditionsMarkTrue (conds : List Condition) (t : String) : List Condition :=
  conditionsSet conds
    { condType := t, status := ConditionStatus.isTrue,
      severity := ConditionSeverity.noSeverity, reason := "", message := "" }

/-- Modelled from the spec: conditions.Delete of pkg/util/conditions
(not in the provided tree) removes the condition with the given type. -/
def conditionsDelete (conds : List Condition) (t : String) : List Condition :=
  conds.filter (fun c => c.condType ≠ t)

/-- clusterv1beta1.APIEndpoint: spec.controlPlaneEndpoint. -/
structure APIEndpoint where
  host : String
  port : Int
deriving DecidableEq, Repr

/-- api VirtualClusterHelmChart. -/
structure VirtualClusterHelmChart where
  name : String
  repo : String
  version : String
deriving DecidableEq, Repr

/-- api VirtualClusterHelmRelease. The ValuesObject RawExtension is
modelled as the JSON document it marshals to (json.Marshal of a
RawExtension returns its raw bytes). -/
structure VirtualClusterHelmRelease where
  chart : VirtualClusterHelmChart
  values : String
  valuesObject : Option String
deriving DecidableEq, Repr

/-- api VClusterSpec. -/
structure VClusterSpec where
  controlPlaneEndpoint : APIEndpoint
  helmRelease : Option VirtualClusterHelmRelease
deriving DecidableEq, Repr

/-- api VirtualClusterPhase. -/
inductive VirtualClusterPhase where
  | unknown
  | pending
  | deployed
  | failed
deriving DecidableEq, Repr

/-- api VClusterStatus. -/
structure VClusterStatus where
  ready : Bool
  initialized : Bool
  phase : VirtualClusterPhase
  reason : String
  message : String
  conditions : List Condition
  observedGeneration : Int
  externalManagedControlPlane : Option Bool
deriving DecidableEq, Repr

/-- metav1.OwnerReference restricted to the fields the controller
reads. -/
structure OwnerReference where
  kind : String
  name : String
deriving DecidableEq, Repr

/-- metav1.ObjectMeta restricted to the fields the controller reads or
writes. The deletion timestamp only matters by presence. -/
structure ObjectMeta where
  name : String
  inNamespace : String
  generation : Int
  deletionTimestampSet : Bool
  finalizers : List String
  ownerReferences : List OwnerReference
deriving DecidableEq, Repr

/-- The reconciled VCluster resource. -/
structure VCluster where
  metadata : ObjectMeta
  spec : VClusterSpec
  status : VClusterStatus
deriving DecidableEq, Repr

/-- A finalizer that is added to the VCluster CR to ensure that helm
delete is executed (controllers/util.go). -/
def CleanupFinalizer : String := "vcluster.loft.sh/cleanup"

/-- DefaultControlPlanePort (controllers/util.go). -/
def DefaultControlPlanePort : Int := 443

/-- constants.DefaultVClusterChartName (pkg/constants/constants.go,
without environment overrides). -/
def DefaultVClusterChartName : String := "vcluster"

/-- constants.DefaultVClusterRepo (pkg/constants/constants.go, without
environment overrides). -/
def DefaultVClusterRepo : String := "https://charts.loft.sh"

/-! ## Phase computation (GenericReconciler.reconcilePhase)

Embeds the active variant: scan status.conditions for the first
condition with status False and severity Error; if found, set
phase/reason/message from it.  Afterwards, only when the current phase
is not Failed, set Deployed (ready and control-plane-initialized
condition true) or Pending. -/

/-- The scan loop of reconcilePhase: the first condition with status
False and severity Error, in list order (the Go loop breaks on the
first match). -/
def findFailedCondition (conds : List Condition) : Option Condition :=
  conds.find? (fun c =>
    c.status = ConditionStatus.isFalse ∧ c.severity = ConditionSeverity.error)

/-- GenericReconciler.reconcilePhase: the active phase computation.
Logging is omitted; the function only mutates status. -/
def reconcilePhase (st : VClusterStatus) : VClusterStatus :=
  let st1 :=
    match findFailedCondition st.conditions with
    | some c =>
        { st with phase := VirtualClusterPhase.failed,
                  reason := c.reason, message := c.message }
    | none => st
  if st1.phase ≠ VirtualClusterPhase.failed then
    if st1.ready ∧ conditionsIsTrue st1.conditions ControlPlaneInitializedCondition then
      { st1 with phase := VirtualClusterPhase.deployed }
    else
      { st1 with phase := VirtualClusterPhase.pending }
  else
    st1

/-- VClusterReconciler.reconcilePhase: the legacy phase computation
(older controllers/vcluster_controller.go). It first resets the phase
to Pending, promotes to Deployed when ready and initialized, clears
reason/message, and finally scans for a False+Error condition. -/
def legacyReconcilePhase (st : VClusterStatus) : VClusterStatus :=
  let st1 := { st with phase := VirtualClusterPhase.pending }
  let st2 :=
    if st1.ready ∧ conditionsIsTrue st1.conditions ControlPlaneInitializedCondition then
      { st1 with phase := VirtualClusterPhase.deployed }
    else
      st1
  let st3 := { st2 with reason := "", message := "" }
  match findFailedCondition st3.conditions with
  | some c =>
      { st3 with phase := VirtualClusterPhase.failed,
                 reason := c.reason, message := c.message }
  | none => st3

/-! ## Redeploy decision (redeployIfNeeded)

Both variants share the idempotence gate
generation == status.observedGeneration && HelmChartDeployedCondition
is True, and both invoke HelmClient.Upgrade with either a local chart
archive path (when os.Stat succeeds on it) or a chart/repo/version
reference.  The external world (filesystem and Helm client) is an
explicit environment; the outcome carries the updated resource, the
returned error and the list of Helm upgrade invocations. -/

/-- helm.UpgradeOptions restricted to the fields the controller sets. -/
structure UpgradeOptions where
  chart : String
  repo : String
  version : String
  path : String
  values : String
deriving DecidableEq, Repr

/-- Environment of a redeploy step: whether os.Stat succeeds on a given
chart archive path, and the outcome of HelmClient.Upgrade (none means
success, some is the error message). -/
structure HelmEnv where
  chartArchiveExists : String → Bool
  upgradeResult : UpgradeOptions → Option String

/-- Outcome of a redeploy step: updated resource, returned error (none
means nil) and all Helm upgrade invocations, in order. -/
structure RedeployOutcome where
  vc : VCluster
  err : Option String
  helmCalls : List UpgradeOptions
deriving Repr

/-- The idempotence gate shared by both redeployIfNeeded variants:
generation equals status.observedGeneration and the
HelmChartDeployedCondition is True. -/
def redeployGate (vc : VCluster) : Bool :=
  vc.metadata.generation = vc.status.observedGeneration
    && conditionsIsTrue vc.status.conditions HelmChartDeployedCondition

/-- Truncation of a Helm error before wrapping: messages longer than
512 characters keep the first 512 followed by a space, an ellipsis of
dots and a space (fmt.Errorf of the sliced string). -/
def truncateHelmError (m : String) : String :=
  if m.length > 512 then m.take 512 ++ " ... " else m

/-- The wrapped install/upgrade error message. -/
def wrapHelmError (m : String) : String :=
  "error installing / upgrading vcluster: " ++ truncateHelmError m

/-- Value resolution of GenericReconciler.redeployIfNeeded: raw values
and a structured valuesObject are mutually exclusive; a set
valuesObject marshals to its raw JSON document. -/
def resolveValues (hr : Option VirtualClusterHelmRelease) : Except String String :=
  match hr with
  | none => Except.ok ""
  | some h =>
    if h.values ≠ "" ∧ h.valuesObject.isSome then
      Except.error "both values and valuesObject cannot be set"
    else
      match h.valuesObject with
      | some raw => Except.ok raw
      | none => Except.ok h.values

/-- Chart version resolution of GenericReconciler.redeployIfNeeded: the
spec version when set, with a leading v stripped; otherwise empty. -/
def genericChartVersion (hr : Option VirtualClusterHelmRelease) : String :=
  match hr with
  | some h =>
    if h.chart.version ≠ "" then
      if h.chart.version.take 1 = "v" then h.chart.version.drop 1
      else h.chart.version
    else ""
  | none => ""

/-- Chart repo resolution of GenericReconciler.redeployIfNeeded: the
spec repo when set, else the compiled-in default. -/
def genericChartRepo (hr : Option VirtualClusterHelmRelease) : String :=
  match hr with
  | some h => if h.chart.repo ≠ "" then h.chart.repo else DefaultVClusterRepo
  | none => DefaultVClusterRepo

/-- Chart name resolution of GenericReconciler.redeployIfNeeded: the
spec name when set, else the compiled-in default. -/
def genericChartName (hr : Option VirtualClusterHelmRelease) : String :=
  match hr with
  | some h => if h.chart.name ≠ "" then h.chart.name else DefaultVClusterChartName
  | none => DefaultVClusterChartName

/-- The local chart archive path probed by os.Stat:
name-version.tgz, or name-latest.tgz when the version is empty. -/
def genericChartPath (hr : Option VirtualClusterHelmRelease) : String :=
  if genericChartVersion hr ≠ "" then
    "./" ++ genericChartName hr ++ "-" ++ genericChartVersion hr ++ ".tgz"
  else
    "./" ++ genericChartName hr ++ "-latest.tgz"

/-- The options of the single HelmClient.Upgrade call of the active
redeploy: by local archive path when the archive exists, else by
chart/repo/version reference. -/
def genericUpgradeOptions (env : HelmEnv) (hr : Option VirtualClusterHelmRelease)
    (values : String) : UpgradeOptions :=
  if env.chartArchiveExists (genericChartPath hr) then
    { chart := "", repo := "", version := "", path := genericChartPath hr,
      values := values }
  else
    { chart := genericChartName hr, repo := genericChartRepo hr,
      version := genericChartVersion hr, path := "", values := values }

/-- The condition surgery of a successful redeploy: mark the
HelmChartDeployedCondition True and delete the
KubeconfigReadyCondition, forcing the next pass to re-verify
reachability. -/
def afterDeployConditions (conds : List Condition) : List Condition :=
  conditionsDelete (conditionsMarkTrue conds HelmChartDeployedCondition)
    KubeconfigReadyCondition

/-- GenericReconciler.redeployIfNeeded (the active variant): skip when
the gate holds; resolve chart identity with compiled-in defaults and an
optional local archive; invoke HelmClient.Upgrade once; on success mark
the HelmChartDeployedCondition True and delete the
KubeconfigReadyCondition. -/
def genericRedeployIfNeeded (env : HelmEnv) (vc : VCluster) : RedeployOutcome :=
  if redeployGate vc then
    { vc := vc, err := none, helmCalls := [] }
  else
    match resolveValues vc.spec.helmRelease with
    | Except.error m => { vc := vc, err := some m, helmCalls := [] }
    | Except.ok values =>
      let opts := genericUpgradeOptions env vc.spec.helmRelease values
      match env.upgradeResult opts with
      | some m => { vc := vc, err := some (wrapHelmError m), helmCalls := [opts] }
      | none =>
        { vc := { vc with status := { vc.status with
              conditions := afterDeployConditions vc.status.conditions } },
          err := none, helmCalls := [opts] }

/-- The options of the single HelmClient.Upgrade call of the legacy
redeploy (which requires a present helmRelease with a non-empty
version before reaching this point). -/
def legacyUpgradeOptions (env : HelmEnv) (h : VirtualClusterHelmRelease) :
    UpgradeOptions :=
  let chartName := if h.chart.name = "" then DefaultVClusterChartName else h.chart.name
  let chartRepo := if h.chart.repo = "" then DefaultVClusterRepo else h.chart.repo
  let chartVersion :=
    if h.chart.version.take 1 = "v" then h.chart.version.drop 1 else h.chart.version
  let chartPath := "./" ++ chartName ++ "-" ++ chartVersion ++ ".tgz"
  if env.chartArchiveExists chartPath then
    { chart := "", repo := "", version := "", path := chartPath, values := h.values }
  else
    { chart := chartName, repo := chartRepo, version := chartVersion, path := "",
      values := h.values }

/-- VClusterReconciler.redeployIfNeeded (the legacy variant): same gate
and Helm invocation, but a nil helmRelease or an empty chart version is
a hard error before any Helm call. -/
def legacyRedeployIfNeeded (env : HelmEnv) (vc : VCluster) : RedeployOutcome :=
  if redeployGate vc then
    { vc := vc, err := none, helmCalls := [] }
  else
    match vc.spec.helmRelease with
    | none =>
      { vc := vc, err := some "empty value of the .spec.HelmRelease.Version field",
        helmCalls := [] }
    | some h =>
      if h.chart.version = "" then
        { vc := vc, err := some "empty value of the .spec.HelmRelease.Version field",
          helmCalls := [] }
      else
        let opts := legacyUpgradeOptions env h
        match env.upgradeResult opts with
        | some m => { vc := vc, err := some (wrapHelmError m), helmCalls := [opts] }
        | none =>
          { vc := { vc with status := { vc.status with
                conditions := afterDeployConditions vc.status.conditions } },
            err := none, helmCalls := [opts] }

/-- Modelled from the spec: patch.WithStatusObservedGeneration of
pkg/util/patch (not in the provided tree): the deferred patch step
advances status.observedGeneration to the object's generation when the
reconciliation pass completed without error. -/
def advanceObservedGeneration (vc : VCluster) : VCluster :=
  { vc with status := { vc.status with observedGeneration := vc.metadata.generation } }

/-! ## Endpoint autodiscovery (DiscoverHostFromService, controllers/util.go)

The function polls the Service named like the vcluster.  A poll is
modelled as the sequence of client.Get outcomes observed on each
iteration; an exhausted sequence is the poll deadline.  The Go `service`
variable persists across iterations (a failed Get leaves the previous
contents), so the fold threads the last successfully fetched Service. -/

/-- Outcome of a client.Get call for an object of type α. -/
inductive GetResult (α : Type) where
  | ok (a : α)
  | notFound
  | otherError (msg : String)
deriving DecidableEq, Repr

/-- corev1.Service restricted to the fields read by discovery. -/
structure ServiceIngress where
  ip : String
  hostname : String
deriving DecidableEq, Repr

/-- corev1.Service restricted to the fields read by discovery. -/
structure Service where
  svcType : String
  clusterIP : String
  ingress : List ServiceIngress
deriving DecidableEq, Repr

/-- The zero-valued Service the Go code allocates before polling. -/
def emptyService : Service := { svcType := "", clusterIP := "", ingress := [] }

/-- The ingress scan of DiscoverHostFromService: the first entry with a
non-empty IP wins over a hostname within the same entry; an entry with
both fields empty is skipped. -/
def pickIngressHost : List ServiceIngress → String
  | [] => ""
  | e :: rest =>
    if e.ip ≠ "" then e.ip
    else if e.hostname ≠ "" then e.hostname
    else pickIngressHost rest

/-- Result of the PollUntilContextTimeout loop inside
DiscoverHostFromService: finished with a host (possibly empty), failed
with a Get error, or timed out; the Service argument is the last
fetched object. -/
inductive DiscoverWaitResult where
  | done (host : String) (svc : Service)
  | errored (msg : String)
  | timedOut
deriving DecidableEq, Repr

/-- The poll loop of DiscoverHostFromService, over the sequence of Get
outcomes. A not-found Get ends the poll with the host still empty; a
non-LoadBalancer Service ends it with the host empty; a LoadBalancer
without a usable ingress host keeps polling. -/
def discoverWait (svc : Service) : List (GetResult Service) → DiscoverWaitResult
  | [] => DiscoverWaitResult.timedOut
  | GetResult.notFound :: _ => DiscoverWaitResult.done "" svc
  | GetResult.otherError m :: _ => DiscoverWaitResult.errored m
  | GetResult.ok s :: rest =>
    if s.svcType ≠ "LoadBalancer" then DiscoverWaitResult.done "" s
    else if s.ingress.isEmpty then discoverWait s rest
    else
      let h := pickIngressHost s.ingress
      if h = "" then discoverWait s rest else DiscoverWaitResult.done h s

/-- DiscoverHostFromService (controllers/util.go, the active variant):
wait for a host; on a poll error wrap it; with an empty host fall back
to the Service cluster IP. -/
def DiscoverHostFromService (obs : List (GetResult Service)) : Except String String :=
  match discoverWait emptyService obs with
  | DiscoverWaitResult.done h s =>
      Except.ok (if h = "" then s.clusterIP else h)
  | DiscoverWaitResult.errored m =>
      Except.error ("can not get vcluster service: " ++ m)
  | DiscoverWaitResult.timedOut =>
      Except.error "can not get vcluster service: context deadline exceeded"

/-! ## Deletion handling (GenericReconciler.Reconcile, deleting branch)

Embeds lines 87-109 of the reconciler (entered when the resource's
deletion timestamp is set) together with deleteHelmChart
(controllers/util.go) and RemoveFinalizer (controllers/util.go).
External calls are an explicit environment; the invoked operations are
logged in order. -/

/-- corev1.Namespace restricted to the deletion timestamp. -/
structure NamespaceInfo where
  deleting : Bool
deriving DecidableEq, Repr

/-- The stored Helm release record, restricted to the secret labels the
controller inspects before deleting. -/
structure HelmRelease where
  secretLabels : List (String × String)
deriving DecidableEq, Repr

/-- Label lookup with the Go map semantics: a missing key (or nil map)
reads as the empty string. -/
def lookupLabel (labels : List (String × String)) (k : String) : String :=
  match labels.find? (fun p => p.1 = k) with
  | some p => p.2
  | none => ""

/-- Outcome of a delete call: success, not-found, or another error. -/
inductive DeleteResult where
  | ok
  | notFound
  | otherError (msg : String)
deriving DecidableEq, Repr

/-- Environment of the deletion branch: outcomes of the namespace Get,
the Helm release record lookup, HelmClient.Delete, the PVC delete and
the finalizer-removing client.Update (none means success). -/
structure DeletionEnv where
  namespaceGet : GetResult NamespaceInfo
  helmSecretsGet : GetResult HelmRelease
  helmDelete : Option String
  pvcDelete : DeleteResult
  finalizerUpdate : Option String

/-- Operations the deletion branch can invoke, in invocation order. -/
inductive DelEvent where
  | helmDeleteCall
  | pvcDeleteCall
  | finalizerUpdateCall
deriving DecidableEq, Repr

/-- Outcome of one deletion-branch pass: returned error (none is a nil
error; the ctrl.Result is always empty in this branch, so the requeue
delay is always zero), the event log, and the resource as persisted
(on a failed finalizer update the stored object keeps its
finalizers). -/
structure DeletionOutcome where
  err : Option String
  requeueAfterSeconds : Nat
  events : List DelEvent
  vc : VCluster
deriving Repr

/-- deleteHelmChart (controllers/util.go): a missing release record or
one not labeled owner=helm is success without invoking Helm delete;
otherwise HelmClient.Delete is invoked and its error returned. The
Bool reports whether Helm delete was invoked. -/
def deleteHelmChart (env : DeletionEnv) : Option String × Bool :=
  match env.helmSecretsGet with
  | GetResult.otherError m => (some m, false)
  | GetResult.notFound => (none, false)
  | GetResult.ok release =>
    if lookupLabel release.secretLabels "owner" ≠ "helm" then (none, false)
    else
      match env.helmDelete with
      | none => (none, true)
      | some m => (some m, true)

/-- RemoveFinalizer (controllers/util.go): filter the finalizer out of
a non-empty list and, when that changes the list, persist via
client.Update. Returns the update error, whether an update was issued,
and the stored resource (unchanged when the update fails). -/
def removeFinalizer (env : DeletionEnv) (vc : VCluster) (finalizer : String) :
    Option String × Bool × VCluster :=
  if vc.metadata.finalizers.isEmpty then (none, false, vc)
  else
    let newFinalizers := vc.metadata.finalizers.filter (fun f => f ≠ finalizer)
    if newFinalizers.length ≠ vc.metadata.finalizers.length then
      match env.finalizerUpdate with
      | none =>
        (none, true,
          { vc with metadata := { vc.metadata with finalizers := newFinalizers } })
      | some m => (some m, true, vc)
    else (none, false, vc)

/-- The deleting branch of GenericReconciler.Reconcile (entered when
the deletion timestamp is set): any error fetching the namespace ends
the pass with a nil error; a terminating namespace removes the cleanup
finalizer without any Helm or PVC delete; otherwise the Helm chart is
deleted, then the data PVC (not-found tolerated), and only then the
finalizer is removed. -/
def reconcileDeletion (env : DeletionEnv) (vc : VCluster) : DeletionOutcome :=
  match env.namespaceGet with
  | GetResult.notFound =>
      { err := none, requeueAfterSeconds := 0, events := [], vc := vc }
  | GetResult.otherError _ =>
      { err := none, requeueAfterSeconds := 0, events := [], vc := vc }
  | GetResult.ok ns =>
    if ns.deleting then
      let rf := removeFinalizer env vc CleanupFinalizer
      { err := rf.1, requeueAfterSeconds := 0,
        events := if rf.2.1 then [DelEvent.finalizerUpdateCall] else [],
        vc := rf.2.2 }
    else
      let del := deleteHelmChart env
      let pre := if del.2 then [DelEvent.helmDeleteCall] else []
      match del.1 with
      | some m =>
        { err := some m, requeueAfterSeconds := 0, events := pre, vc := vc }
      | none =>
        match env.pvcDelete with
        | DeleteResult.otherError m =>
          { err := some m, requeueAfterSeconds := 0,
            events := pre ++ [DelEvent.pvcDeleteCall], vc := vc }
        | _ =>
          let rf := removeFinalizer env vc CleanupFinalizer
          { err := rf.1, requeueAfterSeconds := 0,
            events := pre ++ [DelEvent.pvcDeleteCall]
              ++ (if rf.2.1 then [DelEvent.finalizerUpdateCall] else []),
            vc := rf.2.2 }

/-! ## Kubeconfig sync (GenericReconciler.syncVClusterKubeconfig)

The bootstrap kubeconfig document (secret vc-name, key config) is
modelled structurally as the parsed clientcmd api.Config restricted to
the fields the controller reads: cluster entries (name, server,
certificate authority) and auth-info entries (name, client certificate
and key data).  clientcmd.Write is modelled as the document itself: the
written secret records the structured document.  The environment gives
the outcome of every external call. -/

/-- A cluster entry of the bootstrap kubeconfig document. Only the
server field is ever written by the controller. -/
structure ClusterEntry where
  name : String
  server : String
  certificateAuthority : String
deriving DecidableEq, Repr

/-- An auth-info entry of the bootstrap kubeconfig document. -/
structure AuthInfo where
  name : String
  clientCertificateData : Option String
  clientKeyData : Option String
deriving DecidableEq, Repr

/-- The parsed bootstrap kubeconfig document. -/
structure KubeConfig where
  clusters : List ClusterEntry
  authInfos : List AuthInfo
deriving DecidableEq, Repr

/-- The bootstrap secret vc-name: whether its data has the config key,
and the clientcmd.Load result of that value (none is a parse error). -/
structure BootstrapSecret where
  hasConfigKey : Bool
  parsed : Option KubeConfig
deriving DecidableEq, Repr

/-- A secret written (via CreateOrPatch) by the sync step: the CAPI
kubeconfig secret holding the rewritten document, or the CA secret
holding the key and certificate copied from the certs secret. -/
inductive SecretWrite where
  | kubeconfig (secretName : String) (doc : KubeConfig)
  | ca (secretName : String) (keyData crtData : String)
deriving DecidableEq, Repr

/-- Environment of the sync step: the bootstrap secret Get, the
service-account probe of the nested control plane (none is success),
the Service observations for autodiscovery, the startup Cluster-kind
probe, the kubeconfig-secret CreateOrPatch outcome, the certs secret
Get, and the CA-secret CreateOrPatch outcome. -/
structure SyncEnv where
  vcSecret : GetResult BootstrapSecret
  probeResult : Option String
  discoverObs : List (GetResult Service)
  clusterKindExists : Bool
  kubeSecretWrite : Option String
  certsSecretGet : GetResult (List (String × String))
  caSecretWrite : Option String

/-- GetVClusterKubeConfig (controllers/util.go): load the bootstrap
secret, require the config key and a parseable document. (The source
messages for the two failure cases use contractions; they are
paraphrased here and no verified property depends on them.) -/
def getVClusterKubeConfig (env : SyncEnv) : Except String KubeConfig :=
  match env.vcSecret with
  | GetResult.notFound => Except.error "secret not found"
  | GetResult.otherError m => Except.error m
  | GetResult.ok s =>
    if ¬ s.hasConfigKey then
      Except.error "could not find kube config in vcluster secret"
    else
      match s.parsed with
      | none => Except.error "failed to load vcluster kube config"
      | some kc => Except.ok kc

/-- GetVClusterCredentials (controllers/util.go): the first auth-info
carrying both client certificate data and client key data. -/
def getVClusterCredentials (env : SyncEnv) : Except String (String × String) :=
  match getVClusterKubeConfig env with
  | Except.error m => Except.error m
  | Except.ok kc =>
    match kc.authInfos.find?
        (fun a => a.clientKeyData.isSome && a.clientCertificateData.isSome) with
    | some a => Except.ok (a.clientCertificateData.getD "", a.clientKeyData.getD "")
    | none =>
      Except.error "invalid vcluster kube config, missing client cert and client key"

/-- strings.HasPrefix of the https scheme, modelled on the character
list (same semantics as the byte comparison of the source). -/
def hasHttpsScheme (s : String) : Bool :=
  "https://".data.isPrefixOf s.data

/-- The server rewrite of the sync step, per cluster entry: with a
non-empty resolved host the server becomes host:port (port 443 when the
spec port is zero), and an https scheme is prefixed only when
missing. -/
def rewriteServer (controlPlaneHost : String) (port : Int) (server : String) : String :=
  let h1 :=
    if controlPlaneHost ≠ "" then
      if port ≠ 0 then controlPlaneHost ++ ":" ++ toString port
      else controlPlaneHost ++ ":" ++ toString DefaultControlPlanePort
    else server
  if hasHttpsScheme h1 then h1 else "https://" ++ h1

/-- Sets a condition of the given type to True on the resource. -/
def vcMarkTrue (vc : VCluster) (t : String) : VCluster :=
  { vc with status :=
      { vc.status with conditions := conditionsMarkTrue vc.status.conditions t } }

/-- Sets status.initialized, as the sync step does unconditionally
after the initialization check. -/
def setInitialized (vc : VCluster) : VCluster :=
  { vc with status := { vc.status with initialized := true } }

/-- Outcome of the sync step: returned error (none means the rest
config is returned), the updated resource and the secrets written. -/
structure SyncOutcome where
  err : Option String
  vc : VCluster
  secretWrites : List SecretWrite
deriving Repr

/-- The logical cluster name used for the produced secrets: the first
owner reference of kind Cluster when the Cluster CRD exists, else the
resource's own name. -/
def logicalClusterName (env : SyncEnv) (vc : VCluster) : String :=
  if env.clusterKindExists then
    match vc.metadata.ownerReferences.find? (fun o => o.kind = "Cluster") with
    | some o => o.name
    | none => vc.metadata.name
  else vc.metadata.name

/-- The secret-producing tail of syncVClusterKubeconfig, after host
resolution: rewrite every cluster server of the document, upsert the
kubeconfig secret, copy the CA material from the certs secret into the
CA secret, and mark the KubeconfigReadyCondition only after everything
succeeded. -/
def syncWriteSecrets (env : SyncEnv) (vc2 : VCluster) (controlPlaneHost : String)
    (kc : KubeConfig) : SyncOutcome :=
  let port := vc2.spec.controlPlaneEndpoint.port
  let outDoc : KubeConfig :=
    { kc with clusters := kc.clusters.map (fun e =>
        { e with server := rewriteServer controlPlaneHost port e.server }) }
  let clusterName := logicalClusterName env vc2
  match env.kubeSecretWrite with
  | some m =>
    { err := some ("can not create a kubeconfig secret: " ++ m),
      vc := vc2, secretWrites := [] }
  | none =>
    let w1 := SecretWrite.kubeconfig (clusterName ++ "-kubeconfig") outDoc
    match env.certsSecretGet with
    | GetResult.notFound =>
      { err := some "can not get certs secret: secret not found",
        vc := vc2, secretWrites := [w1] }
    | GetResult.otherError m =>
      { err := some ("can not get certs secret: " ++ m),
        vc := vc2, secretWrites := [w1] }
    | GetResult.ok certsData =>
      match env.caSecretWrite with
      | some m =>
        { err := some ("can not create a kubeconfig secret: " ++ m),
          vc := vc2, secretWrites := [w1] }
      | none =>
        let w2 := SecretWrite.ca (clusterName ++ "-ca")
          (lookupLabel certsData "ca.key") (lookupLabel certsData "ca.crt")
        { err := none, vc := vcMarkTrue vc2 KubeconfigReadyCondition,
          secretWrites := [w1, w2] }

/-- The tail of syncVClusterKubeconfig from loading the bootstrap
document onwards: require exactly one cluster entry, resolve the
control-plane host (spec override, else autodiscovery with write-back
into the spec and port defaulting), then produce the secrets. -/
def syncFromKubeConfig (env : SyncEnv) (vc : VCluster) : SyncOutcome :=
  match getVClusterKubeConfig env with
  | Except.error m =>
    { err := some ("can not retrieve kubeconfig: " ++ m), vc := vc, secretWrites := [] }
  | Except.ok kc =>
    if kc.clusters.length ≠ 1 then
      { err := some "unexpected kube config", vc := vc, secretWrites := [] }
    else
      if vc.spec.controlPlaneEndpoint.host = "" then
        match DiscoverHostFromService env.discoverObs with
        | Except.error m => { err := some m, vc := vc, secretWrites := [] }
        | Except.ok h =>
          let newPort :=
            if vc.spec.controlPlaneEndpoint.port = 0 then DefaultControlPlanePort
            else vc.spec.controlPlaneEndpoint.port
          let vc2 :=
            { vc with spec :=
                { vc.spec with controlPlaneEndpoint := { host := h, port := newPort } } }
          syncWriteSecrets env vc2 h kc
      else
        syncWriteSecrets env vc vc.spec.controlPlaneEndpoint.host kc

/-- GenericReconciler.syncVClusterKubeconfig: extract credentials,
build the in-cluster client (its construction is pure and modelled as
success), run the one-shot initialization probe when the
control-plane-initialized condition is not yet True (sticky once True),
set status.initialized unconditionally, then continue with the
bootstrap document. -/
def syncVClusterKubeconfig (env : SyncEnv) (vc : VCluster) : SyncOutcome :=
  match getVClusterCredentials env with
  | Except.error m => { err := some m, vc := vc, secretWrites := [] }
  | Except.ok _ =>
    if conditionsIsTrue vc.status.conditions ControlPlaneInitializedCondition then
      syncFromKubeConfig env (setInitialized vc)
    else
      match env.probeResult with
      | some m => { err := some m, vc := vc, secretWrites := [] }
      | none =>
        syncFromKubeConfig env
          (setInitialized (vcMarkTrue vc ControlPlaneInitializedCondition))

/-! ## Concrete instances used by witness theorems -/

/-- A False condition with Warning severity, as left by a failed
kubeconfig check. -/
def c1CondA : Condition :=
  { condType := "KubeconfigReady", status := ConditionStatus.isFalse,
    severity := ConditionSeverity.warning, reason := "CheckFailed", message := "w" }

/-- The first False+Error condition of the C1 witness status. -/
def c1CondB : Condition :=
  { condType := "HelmChartDeployed", status := ConditionStatus.isFalse,
    severity := ConditionSeverity.error, reason := "HelmDeployFailed", message := "boom" }

/-- A later False+Error condition, to exercise the first-match
tie-break. -/
def c1CondC : Condition :=
  { condType := "InfrastructureClusterSynced", status := ConditionStatus.isFalse,
    severity := ConditionSeverity.error, reason := "PatchFailed", message := "later" }

/-- A status that is ready/deployed yet carries two False+Error
conditions. -/
def c1Status : VClusterStatus :=
  { ready := true, initialized := true, phase := VirtualClusterPhase.deployed,
    reason := "", message := "",
    conditions := [c1CondA, c1CondB, c1CondC],
    observedGeneration := 0, externalManagedControlPlane := none }

/-- An object metadata shared by several witnesses. -/
def wMeta : ObjectMeta :=
  { name := "test-vcluster", inNamespace := "default", generation := 2,
    deletionTimestampSet := false, finalizers := [], ownerReferences := [] }

/-- A resource one generation ahead of its observed generation, with a
concrete chart version. -/
def w2VC : VCluster :=
  { metadata := wMeta,
    spec :=
      { controlPlaneEndpoint := { host := "", port := 0 },
        helmRelease := some
          { chart := { name := "vcluster", repo := "", version := "0.19.0" },
            values := "", valuesObject := none } },
    status :=
      { ready := false, initialized := false, phase := VirtualClusterPhase.pending,
        reason := "", message := "", conditions := [],
        observedGeneration := 1, externalManagedControlPlane := none } }

/-- A Helm environment with no local chart archive and a succeeding
upgrade. -/
def wHelmEnvOK : HelmEnv :=
  { chartArchiveExists := fun _ => false, upgradeResult := fun _ => none }

/-- A resource with no helmRelease at all, one generation ahead. -/
def c5VC : VCluster :=
  { metadata := wMeta,
    spec := { controlPlaneEndpoint := { host := "", port := 0 }, helmRelease := none },
    status :=
      { ready := false, initialized := false, phase := VirtualClusterPhase.pending,
        reason := "", message := "", conditions := [],
        observedGeneration := 1, externalManagedControlPlane := none } }

/-- A LoadBalancer Service whose first ingress entry carries both a
hostname and an IP. -/
def c4Service : Service :=
  { svcType := "LoadBalancer", clusterIP := "10.96.0.7",
    ingress := [ { ip := "203.0.113.9", hostname := "lb.example.com" } ] }

/-- A deletion-timestamped resource still carrying the cleanup
finalizer. -/
def delVC : VCluster :=
  { metadata :=
      { name := "test-vcluster", inNamespace := "default", generation := 2,
        deletionTimestampSet := true, finalizers := [CleanupFinalizer],
        ownerReferences := [] },
    spec := { controlPlaneEndpoint := { host := "", port := 0 }, helmRelease := none },
    status :=
      { ready := false, initialized := false, phase := VirtualClusterPhase.pending,
        reason := "", message := "", conditions := [],
        observedGeneration := 1, externalManagedControlPlane := none } }

/-- Deletion environment: live namespace, Helm-owned release record,
and every delete step succeeding. -/
def c6Env : DeletionEnv :=
  { namespaceGet := GetResult.ok { deleting := false },
    helmSecretsGet := GetResult.ok { secretLabels := [("owner", "helm")] },
    helmDelete := none, pvcDelete := DeleteResult.ok, finalizerUpdate := none }

/-- Deletion environment whose namespace is itself terminating. -/
def c7Env : DeletionEnv :=
  { namespaceGet := GetResult.ok { deleting := true },
    helmSecretsGet := GetResult.ok { secretLabels := [("owner", "helm")] },
    helmDelete := none, pvcDelete := DeleteResult.ok, finalizerUpdate := none }

/-- Deletion environment whose namespace Get fails with a transient
API error. -/
def c10Env : DeletionEnv :=
  { namespaceGet := GetResult.otherError "connection refused",
    helmSecretsGet := GetResult.ok { secretLabels := [("owner", "helm")] },
    helmDelete := none, pvcDelete := DeleteResult.ok, finalizerUpdate := none }

/-- The single cluster entry of the witness bootstrap document, with
the in-cluster server address of the spec's worked example. -/
def c8Entry : ClusterEntry :=
  { name := "kubeconfig-cluster", server := "https://10.0.0.5:443",
    certificateAuthority := "test.crt" }

/-- The auth-info of the witness bootstrap document. -/
def c8Auth : AuthInfo :=
  { name := "kubeconfig-user", clientCertificateData := some "CERTDATA",
    clientKeyData := some "KEYDATA" }

/-- A well-formed single-cluster bootstrap document. -/
def c8Doc : KubeConfig := { clusters := [c8Entry], authInfos := [c8Auth] }

/-- A resource whose spec pins the external endpoint of the spec's
worked example. -/
def c8VC : VCluster :=
  { metadata := wMeta,
    spec :=
      { controlPlaneEndpoint := { host := "vcluster.example.com", port := 8443 },
        helmRelease := none },
    status :=
      { ready := false, initialized := false, phase := VirtualClusterPhase.pending,
        reason := "", message := "", conditions := [],
        observedGeneration := 1, externalManagedControlPlane := none } }

/-- Sync environment for the rewrite witness: everything succeeds. -/
def c8Env : SyncEnv :=
  { vcSecret := GetResult.ok { hasConfigKey := true, parsed := some c8Doc },
    probeResult := none, discoverObs := [], clusterKindExists := false,
    kubeSecretWrite := none,
    certsSecretGet := GetResult.ok [("ca.key", "CAKEY"), ("ca.crt", "CACRT")],
    caSecretWrite := none }

/-- An ambiguous bootstrap document with two cluster entries. -/
def c9Doc : KubeConfig :=
  { clusters :=
      [c8Entry,
        { name := "second-cluster", server := "https://10.0.0.6:443",
          certificateAuthority := "" }],
    authInfos := [c8Auth] }

/-- Sync environment whose bootstrap secret holds the two-cluster
document. -/
def c9Env : SyncEnv :=
  { vcSecret := GetResult.ok { hasConfigKey := true, parsed := some c9Doc },
    probeResult := none, discoverObs := [], clusterKindExists := false,
    kubeSecretWrite := none,
    certsSecretGet := GetResult.ok [("ca.key", "CAKEY"), ("ca.crt", "CACRT")],
    caSecretWrite := none }

end CAPVC

namespace CAPVC

/-! ## Helper lemmas about condition lookup -/

theorem find?_first_match (p : Condition → Bool) (pre post : List Condition)
    (c : Condition) (hpre : ∀ x ∈ pre, ¬ p x = true) (hc : p c = true) :
    (pre ++ c :: post).find? p = some c := by
  rw [List.find?_append, List.find?_eq_none.mpr hpre, Option.none_or,
    List.find?_cons_of_pos _ hc]

theorem find?_filter_ne (t k : String) (hne : t ≠ k) :
    ∀ conds : List Condition,
      (conds.filter (fun x => x.condType ≠ k)).find? (fun x => x.condType = t) =
        conds.find? (fun x => x.condType = t)
  | [] => by simp
  | a :: l => by
    by_cases h : a.condType = k
    · rw [List.filter_cons_of_neg (by simp [h]),
        List.find?_cons_of_neg l (by simp [h]; exact fun hh => hne hh.symm)]
      exact find?_filter_ne t k hne l
    · rw [List.filter_cons_of_pos (by simp [h])]
      by_cases h2 : a.condType = t
      · rw [List.find?_cons_of_pos _ (by simp [h2]),
          List.find?_cons_of_pos _ (by simp [h2])]
      · rw [List.find?_cons_of_neg _ (by simp [h2]),
          List.find?_cons_of_neg _ (by simp [h2])]
        exact find?_filter_ne t k hne l

theorem find?_replace_eq (t : String) (c : Condition) (hc : c.condType = t) :
    ∀ conds : List Condition,
      (conds.map (fun x => if x.condType = t then c else x)).find?
          (fun x => x.condType = t) =
        if conds.any (fun x => x.condType = t) then some c else none := by
  intro conds
  induction conds with
  | nil => simp
  | cons a l ih =>
    by_cases h : a.condType = t
    · simp [h, hc]
    · simp [h, ih]

/-- After conditionsSet with a condition of type t, looking up type t
finds exactly the set condition. -/
theorem conditionsGet_set (conds : List Condition) (c : Condition) (t : String)
    (hc : c.condType = t) : conditionsGet (conditionsSet conds c) t = some c := by
  unfold conditionsGet conditionsSet
  subst hc
  by_cases h : conds.any (fun x => x.condType = c.condType)
  · rw [if_pos h, find?_replace_eq c.condType c rfl, if_pos h]
  · rw [if_neg h, List.find?_append,
      List.find?_eq_none.mpr (fun x hx hpx => by
        refine h ?_
        exact List.any_eq_true.mpr ⟨x, hx, hpx⟩),
      Option.none_or]
    simp

/-- The HelmChartDeployedCondition is True after the success path of a
redeploy marks it and deletes the KubeconfigReadyCondition. -/
theorem isTrue_after_mark_and_delete (conds : List Condition) :
    conditionsIsTrue
      (conditionsDelete (conditionsMarkTrue conds HelmChartDeployedCondition)
        KubeconfigReadyCondition)
      HelmChartDeployedCondition = true := by
  unfold conditionsIsTrue
  unfold conditionsDelete
  have hget :
      conditionsGet (conditionsMarkTrue conds HelmChartDeployedCondition)
        HelmChartDeployedCondition =
      some { condType := HelmChartDeployedCondition, status := ConditionStatus.isTrue,
             severity := ConditionSeverity.noSeverity, reason := "", message := "" } :=
    conditionsGet_set conds _ _ rfl
  unfold conditionsGet at hget ⊢
  rw [find?_filter_ne HelmChartDeployedCondition KubeconfigReadyCondition
    (by decide), hget]
  simp

/-! ## Claim theorems -/

/-- C1: for every condition set containing at least one condition with
status False and severity Error, after reconcilePhase the phase is
Failed regardless of status.ready and of the control-plane-initialized
condition, and reason/message are copied from the first such condition
in list order. -/
theorem reconcilePhase_failed_first_error (st : VClusterStatus)
    (pre post : List Condition) (c : Condition)
    (hsplit : st.conditions = pre ++ c :: post)
    (hst : c.status = ConditionStatus.isFalse)
    (hsev : c.severity = ConditionSeverity.error)
    (hpre : ∀ x ∈ pre,
      ¬ (x.status = ConditionStatus.isFalse ∧ x.severity = ConditionSeverity.error)) :
    (reconcilePhase st).phase = VirtualClusterPhase.failed ∧
    (reconcilePhase st).reason = c.reason ∧
    (reconcilePhase st).message = c.message := by
  have hfind : findFailedCondition st.conditions = some c := by
    rw [hsplit]
    unfold findFailedCondition
    refine find?_first_match _ pre post c (fun x hx => ?_) (by simp [hst, hsev])
    simpa using hpre x hx
  unfold reconcilePhase
  rw [hfind]
  simp

/-- Witness for C1 on a concrete ready/deployed status carrying a
Warning condition followed by two False+Error conditions: the phase
becomes Failed with reason/message of the first error condition. -/
theorem reconcilePhase_failed_first_error_witness :
    (reconcilePhase c1Status).phase = VirtualClusterPhase.failed ∧
    (reconcilePhase c1Status).reason = "HelmDeployFailed" ∧
    (reconcilePhase c1Status).message = "boom" :=
  reconcilePhase_failed_first_error c1Status [c1CondA] [c1CondC] c1CondB
    rfl rfl rfl (by decide)

/-- C3 (code bug): the claimed invariant is
phase = Failed iff some condition has Error severity.
The active reconcilePhase violates its only-if direction: with a stale
Failed phase and an empty condition set, the phase stays Failed (the
Deployed/Pending assignment is guarded by the phase not already being
Failed), whereas the legacy variant recomputes from Pending as the
claim states. -/
theorem reconcilePhase_stale_failed_not_reset :
    (reconcilePhase
      { ready := false, initialized := false, phase := VirtualClusterPhase.failed,
        reason := "HelmDeployFailed", message := "old failure", conditions := [],
        observedGeneration := 0, externalManagedControlPlane := none }).phase
      = VirtualClusterPhase.failed ∧
    findFailedCondition [] = none ∧
    (legacyReconcilePhase
      { ready := false, initialized := false, phase := VirtualClusterPhase.failed,
        reason := "HelmDeployFailed", message := "old failure", conditions := [],
        observedGeneration := 0, externalManagedControlPlane := none }).phase
      = VirtualClusterPhase.pending := by
  refine ⟨by decide, by decide, by decide⟩

/-- C4: for every LoadBalancer Service whose first ingress entry has
both a non-empty hostname and a non-empty IP, DiscoverHostFromService
returns the IP. -/
theorem discoverHost_prefers_ip (s : Service) (e : ServiceIngress)
    (rest : List ServiceIngress) (obs : List (GetResult Service))
    (htype : s.svcType = "LoadBalancer")
    (hing : s.ingress = e :: rest)
    (hhost : e.hostname ≠ "") (hip : e.ip ≠ "") :
    DiscoverHostFromService (GetResult.ok s :: obs) = Except.ok e.ip := by
  unfold DiscoverHostFromService discoverWait
  simp [htype, hing, pickIngressHost, hip]

/-- Witness for C4 on a concrete dual-entry ingress: the IP
203.0.113.9 wins over the hostname lb.example.com. -/
theorem discoverHost_prefers_ip_witness :
    DiscoverHostFromService [GetResult.ok c4Service] = Except.ok "203.0.113.9" :=
  discoverHost_prefers_ip c4Service
    { ip := "203.0.113.9", hostname := "lb.example.com" } [] []
    rfl rfl (by decide) (by decide)

/-- When the gate does not short-circuit and the redeploy returns no
error, exactly one Helm upgrade was invoked and the resource's only
change is the marked HelmChartDeployedCondition and the deleted
KubeconfigReadyCondition. -/
theorem genericRedeploy_success (env : HelmEnv) (vc : VCluster)
    (h : redeployGate vc = false)
    (he : (genericRedeployIfNeeded env vc).err = none) :
    (genericRedeployIfNeeded env vc).helmCalls.length = 1 ∧
    (genericRedeployIfNeeded env vc).vc =
      { vc with status :=
          { vc.status with
            conditions := afterDeployConditions vc.status.conditions } } := by
  simp only [genericRedeployIfNeeded, h, Bool.false_eq_true, if_false] at he ⊢
  cases hrv : resolveValues vc.spec.helmRelease with
  | error m => rw [hrv] at he; simp at he
  | ok values =>
    rw [hrv] at he
    simp only at he ⊢
    cases hur : env.upgradeResult (genericUpgradeOptions env vc.spec.helmRelease values) with
    | none =>
      rw [hur] at he
      simp [hur]
    | some m =>
      rw [hur] at he
      simp at he

/-- When the gate holds, the active redeploy returns immediately with
no error and no Helm invocation. -/
theorem genericRedeploy_skip (env : HelmEnv) (vc : VCluster)
    (h : redeployGate vc = true) :
    genericRedeployIfNeeded env vc = { vc := vc, err := none, helmCalls := [] } := by
  simp [genericRedeployIfNeeded, h]

/-- C2: the active redeployIfNeeded is a no-op (nil error and no Helm
install/upgrade invocation) exactly when generation equals
status.observedGeneration and the HelmChartDeployedCondition is True;
and after a successful first redeploy whose pass advances the observed
generation, a second call with no spec change invokes no further Helm
upgrade, so the two calls together invoke exactly one. -/
theorem redeployIfNeeded_noop_iff_gate :
    (∀ (env : HelmEnv) (vc : VCluster),
      ((genericRedeployIfNeeded env vc).err = none ∧
        (genericRedeployIfNeeded env vc).helmCalls = []) ↔ redeployGate vc = true) ∧
    (∀ (env : HelmEnv) (vc : VCluster), redeployGate vc = false →
      (genericRedeployIfNeeded env vc).err = none →
      (genericRedeployIfNeeded env vc).helmCalls.length = 1 ∧
      (genericRedeployIfNeeded env
        (advanceObservedGeneration (genericRedeployIfNeeded env vc).vc)).helmCalls
        = []) := by
  constructor
  · intro env vc
    constructor
    · rintro ⟨he, hc⟩
      cases hgb : redeployGate vc with
      | true => rfl
      | false =>
        have hlen := (genericRedeploy_success env vc hgb he).1
        rw [hc] at hlen
        simp at hlen
    · intro hg
      rw [genericRedeploy_skip env vc hg]
      exact ⟨rfl, rfl⟩
  · intro env vc hg he
    obtain ⟨hlen, hvc⟩ := genericRedeploy_success env vc hg he
    refine ⟨hlen, ?_⟩
    have hgate2 :
        redeployGate
          (advanceObservedGeneration (genericRedeployIfNeeded env vc).vc) = true := by
      rw [hvc]
      unfold redeployGate advanceObservedGeneration
      simp [afterDeployConditions, isTrue_after_mark_and_delete]
    rw [genericRedeploy_skip _ _ hgate2]

/-- Witness for C2 on a concrete resource one generation ahead with a
succeeding Helm environment: the first call is not skipped and invokes
exactly one upgrade, the second call after the observed-generation
advance invokes none. -/
theorem redeployIfNeeded_noop_iff_gate_witness :
    (((genericRedeployIfNeeded wHelmEnvOK w2VC).err = none ∧
        (genericRedeployIfNeeded wHelmEnvOK w2VC).helmCalls = []) ↔
      redeployGate w2VC = true) ∧
    ((genericRedeployIfNeeded wHelmEnvOK w2VC).helmCalls.length = 1 ∧
      (genericRedeployIfNeeded wHelmEnvOK
        (advanceObservedGeneration
          (genericRedeployIfNeeded wHelmEnvOK w2VC).vc)).helmCalls = []) :=
  ⟨redeployIfNeeded_noop_iff_gate.1 wHelmEnvOK w2VC,
    redeployIfNeeded_noop_iff_gate.2 wHelmEnvOK w2VC (by decide) (by decide)⟩

/-- C5 counterexample: on the active GenericReconciler.redeployIfNeeded
a resource with no helmRelease at all (hence an empty chart version) is
not a hard error: the call returns a nil error and invokes one Helm
upgrade, contradicting the claimed hard-error policy. -/
theorem genericRedeploy_empty_version_counterexample :
    c5VC.spec.helmRelease = none ∧
    (genericRedeployIfNeeded wHelmEnvOK c5VC).err = none ∧
    (genericRedeployIfNeeded wHelmEnvOK c5VC).helmCalls.length = 1 :=
  ⟨rfl, by decide, by decide⟩

/-- C5 (amended): only the legacy VClusterReconciler.redeployIfNeeded
enforces the hard-error policy: when the generation/condition gate does
not skip, a nil spec.helmRelease or an empty chart version returns the
empty-version error without invoking Helm; the active
GenericReconciler.redeployIfNeeded instead proceeds whenever value
resolution succeeds, invoking exactly one Helm upgrade. -/
theorem redeploy_empty_version_policy :
    (∀ (env : HelmEnv) (vc : VCluster), redeployGate vc = false →
      (vc.spec.helmRelease = none ∨
        ∃ h, vc.spec.helmRelease = some h ∧ h.chart.version = "") →
      (legacyRedeployIfNeeded env vc).err =
        some "empty value of the .spec.HelmRelease.Version field" ∧
      (legacyRedeployIfNeeded env vc).helmCalls = []) ∧
    (∀ (env : HelmEnv) (vc : VCluster) (values : String), redeployGate vc = false →
      resolveValues vc.spec.helmRelease = Except.ok values →
      (genericRedeployIfNeeded env vc).helmCalls.length = 1) := by
  constructor
  · intro env vc hg hv
    simp only [legacyRedeployIfNeeded, hg, Bool.false_eq_true, if_false]
    rcases hv with hnone | ⟨h, hsome, hver⟩
    · rw [hnone]
      exact ⟨rfl, rfl⟩
    · rw [hsome]
      simp only [hver, if_pos rfl]
      exact ⟨rfl, rfl⟩
  · intro env vc values hg hrv
    simp only [genericRedeployIfNeeded, hg, Bool.false_eq_true, if_false]
    rw [hrv]
    simp only
    cases hur : env.upgradeResult (genericUpgradeOptions env vc.spec.helmRelease values) with
    | none => simp [hur]
    | some m => simp [hur]

/-- Witness for the amended C5 at a concrete resource with no
helmRelease: the legacy variant hard-errors without a Helm call, the
active variant performs one Helm upgrade. -/
theorem redeploy_empty_version_policy_witness :
    ((legacyRedeployIfNeeded wHelmEnvOK c5VC).err =
        some "empty value of the .spec.HelmRelease.Version field" ∧
      (legacyRedeployIfNeeded wHelmEnvOK c5VC).helmCalls = []) ∧
    (genericRedeployIfNeeded wHelmEnvOK c5VC).helmCalls.length = 1 :=
  ⟨redeploy_empty_version_policy.1 wHelmEnvOK c5VC (by decide) (Or.inl rfl),
    redeploy_empty_version_policy.2 wHelmEnvOK c5VC "" (by decide) rfl⟩

/-- A string stays out of the list filtered on being different from
it. -/
theorem not_mem_filter_ne_self (l : List String) (a : String) :
    a ∉ l.filter (fun x => x ≠ a) := by
  intro h
  have := List.mem_filter.mp h
  simp at this

/-- Filtering a present element strictly shortens the list. -/
theorem filter_ne_length_ne (l : List String) (a : String) (h : a ∈ l) :
    (l.filter (fun x => x ≠ a)).length ≠ l.length := by
  have hlt : (l.filter (fun x => x ≠ a)).length < l.length :=
    List.length_filter_lt_length_iff_exists.mpr ⟨a, h, by simp⟩
  omega

/-- With the cleanup finalizer present and a succeeding update,
RemoveFinalizer issues exactly one update and stores the resource with
the finalizer filtered out. -/
theorem removeFinalizer_removes (env : DeletionEnv) (vc : VCluster)
    (hfin : CleanupFinalizer ∈ vc.metadata.finalizers)
    (hupd : env.finalizerUpdate = none) :
    removeFinalizer env vc CleanupFinalizer =
      (none, true,
        { vc with metadata := { vc.metadata with
            finalizers := vc.metadata.finalizers.filter
              (fun f => f ≠ CleanupFinalizer) } }) := by
  have h1 : vc.metadata.finalizers.isEmpty = false := by
    cases hl : vc.metadata.finalizers with
    | nil => rw [hl] at hfin; cases hfin
    | cons a l => rfl
  unfold removeFinalizer
  simp only [h1, Bool.false_eq_true, if_false]
  rw [if_pos (filter_ne_length_ne _ _ hfin), hupd]

/-- With a Helm-owned release record present, deleteHelmChart invokes
Helm delete and propagates its outcome. -/
theorem deleteHelmChart_owned (env : DeletionEnv) (rel : HelmRelease)
    (hrel : env.helmSecretsGet = GetResult.ok rel)
    (howner : lookupLabel rel.secretLabels "owner" = "helm") :
    deleteHelmChart env = (env.helmDelete, true) := by
  unfold deleteHelmChart
  rw [hrel]
  simp only [howner]
  rw [if_neg (by simp)]
  cases env.helmDelete <;> rfl

/-- C6: with a deletion timestamp, a live namespace and a stored Helm
release labeled owner=helm, one pass invokes Helm delete exactly once;
on a Helm delete error the pass returns that error without touching
the resource or its finalizer; on success the finalizer update is the
last step, after the Helm and PVC deletes, and the cleanup finalizer
is gone from the stored resource. -/
theorem reconcileDeletion_owned_release (env : DeletionEnv) (vc : VCluster)
    (ns : NamespaceInfo) (rel : HelmRelease)
    (hns : env.namespaceGet = GetResult.ok ns)
    (hnd : ns.deleting = false)
    (hrel : env.helmSecretsGet = GetResult.ok rel)
    (howner : lookupLabel rel.secretLabels "owner" = "helm")
    (hfin : CleanupFinalizer ∈ vc.metadata.finalizers) :
    (reconcileDeletion env vc).events.count DelEvent.helmDeleteCall = 1 ∧
    (∀ m, env.helmDelete = some m →
      (reconcileDeletion env vc).err = some m ∧
      (reconcileDeletion env vc).vc = vc ∧
      DelEvent.finalizerUpdateCall ∉ (reconcileDeletion env vc).events) ∧
    (env.helmDelete = none → (∀ m, env.pvcDelete ≠ DeleteResult.otherError m) →
      env.finalizerUpdate = none →
      (reconcileDeletion env vc).events =
        [DelEvent.helmDeleteCall, DelEvent.pvcDeleteCall,
          DelEvent.finalizerUpdateCall] ∧
      CleanupFinalizer ∉ (reconcileDeletion env vc).vc.metadata.finalizers ∧
      (reconcileDeletion env vc).err = none) := by
  have hdel := deleteHelmChart_owned env rel hrel howner
  cases hhd : env.helmDelete with
  | some m =>
    have hout : reconcileDeletion env vc =
        { err := some m, requeueAfterSeconds := 0,
          events := [DelEvent.helmDeleteCall], vc := vc } := by
      unfold reconcileDeletion
      rw [hns]
      simp [hnd, hdel, hhd]
    rw [hout]
    refine ⟨rfl, fun m' hm' => ?_, fun hnone => ?_⟩
    · cases hm'
      exact ⟨rfl, rfl, by simp⟩
    · cases hnone
  | none =>
    cases hpd : env.pvcDelete with
    | otherError m =>
      have hout : reconcileDeletion env vc =
          { err := some m, requeueAfterSeconds := 0,
            events := [DelEvent.helmDeleteCall, DelEvent.pvcDeleteCall],
            vc := vc } := by
        unfold reconcileDeletion
        rw [hns]
        simp [hnd, hdel, hhd, hpd]
      rw [hout]
      refine ⟨rfl, fun m' hm' => ?_, fun _ hok => ?_⟩
      · cases hm'
      · exact absurd rfl (hok m)
    | ok =>
      refine ⟨?_, fun m' hm' => ?_, fun _ _ hupd => ?_⟩
      · have hout : reconcileDeletion env vc =
            { err := (removeFinalizer env vc CleanupFinalizer).1,
              requeueAfterSeconds := 0,
              events := [DelEvent.helmDeleteCall, DelEvent.pvcDeleteCall] ++
                (if (removeFinalizer env vc CleanupFinalizer).2.1 then
                  [DelEvent.finalizerUpdateCall] else []),
              vc := (removeFinalizer env vc CleanupFinalizer).2.2 } := by
          unfold reconcileDeletion
          rw [hns]
          simp [hnd, hdel, hhd, hpd]
        rw [hout]
        cases (removeFinalizer env vc CleanupFinalizer).2.1 <;> simp
      · cases hm'
      · have hrm := removeFinalizer_removes env vc hfin hupd
        have hout : reconcileDeletion env vc =
            { err := none, requeueAfterSeconds := 0,
              events := [DelEvent.helmDeleteCall, DelEvent.pvcDeleteCall,
                DelEvent.finalizerUpdateCall],
              vc := { vc with metadata := { vc.metadata with
                finalizers := vc.metadata.finalizers.filter
                  (fun f => f ≠ CleanupFinalizer) } } } := by
          unfold reconcileDeletion
          rw [hns]
          simp [hnd, hdel, hhd, hpd, hrm]
        rw [hout]
        exact ⟨rfl, not_mem_filter_ne_self _ _, rfl⟩
    | notFound =>
      refine ⟨?_, fun m' hm' => ?_, fun _ _ hupd => ?_⟩
      · have hout : reconcileDeletion env vc =
            { err := (removeFinalizer env vc CleanupFinalizer).1,
              requeueAfterSeconds := 0,
              events := [DelEvent.helmDeleteCall, DelEvent.pvcDeleteCall] ++
                (if (removeFinalizer env vc CleanupFinalizer).2.1 then
                  [DelEvent.finalizerUpdateCall] else []),
              vc := (removeFinalizer env vc CleanupFinalizer).2.2 } := by
          unfold reconcileDeletion
          rw [hns]
          simp [hnd, hdel, hhd, hpd]
        rw [hout]
        cases (removeFinalizer env vc CleanupFinalizer).2.1 <;> simp
      · cases hm'
      · have hrm := removeFinalizer_removes env vc hfin hupd
        have hout : reconcileDeletion env vc =
            { err := none, requeueAfterSeconds := 0,
              events := [DelEvent.helmDeleteCall, DelEvent.pvcDeleteCall,
                DelEvent.finalizerUpdateCall],
              vc := { vc with metadata := { vc.metadata with
                finalizers := vc.metadata.finalizers.filter
                  (fun f => f ≠ CleanupFinalizer) } } } := by
          unfold reconcileDeletion
          rw [hns]
          simp [hnd, hdel, hhd, hpd, hrm]
        rw [hout]
        exact ⟨rfl, not_mem_filter_ne_self _ _, rfl⟩

/-- Witness for C6 on a concrete owned release with all deletes
succeeding. -/
theorem reconcileDeletion_owned_release_witness :
    (reconcileDeletion c6Env delVC).events.count DelEvent.helmDeleteCall = 1 ∧
    (∀ m, c6Env.helmDelete = some m →
      (reconcileDeletion c6Env delVC).err = some m ∧
      (reconcileDeletion c6Env delVC).vc = delVC ∧
      DelEvent.finalizerUpdateCall ∉ (reconcileDeletion c6Env delVC).events) ∧
    (c6Env.helmDelete = none →
      (∀ m, c6Env.pvcDelete ≠ DeleteResult.otherError m) →
      c6Env.finalizerUpdate = none →
      (reconcileDeletion c6Env delVC).events =
        [DelEvent.helmDeleteCall, DelEvent.pvcDeleteCall,
          DelEvent.finalizerUpdateCall] ∧
      CleanupFinalizer ∉ (reconcileDeletion c6Env delVC).vc.metadata.finalizers ∧
      (reconcileDeletion c6Env delVC).err = none) :=
  reconcileDeletion_owned_release c6Env delVC { deleting := false }
    { secretLabels := [("owner", "helm")] } rfl rfl rfl (by decide) (by decide)

/-- C7: with a deletion timestamp and a terminating namespace, the
pass removes the cleanup finalizer without invoking the Helm delete or
the PVC delete, changing nothing else on the resource. -/
theorem reconcileDeletion_namespace_terminating (env : DeletionEnv) (vc : VCluster)
    (ns : NamespaceInfo)
    (hns : env.namespaceGet = GetResult.ok ns) (hd : ns.deleting = true)
    (hfin : CleanupFinalizer ∈ vc.metadata.finalizers)
    (hupd : env.finalizerUpdate = none) :
    (reconcileDeletion env vc).err = none ∧
    (reconcileDeletion env vc).events = [DelEvent.finalizerUpdateCall] ∧
    (reconcileDeletion env vc).vc =
      { vc with metadata := { vc.metadata with
          finalizers := vc.metadata.finalizers.filter
            (fun f => f ≠ CleanupFinalizer) } } ∧
    DelEvent.helmDeleteCall ∉ (reconcileDeletion env vc).events ∧
    DelEvent.pvcDeleteCall ∉ (reconcileDeletion env vc).events := by
  have hout : reconcileDeletion env vc =
      { err := none, requeueAfterSeconds := 0,
        events := [DelEvent.finalizerUpdateCall],
        vc := { vc with metadata := { vc.metadata with
          finalizers := vc.metadata.finalizers.filter
            (fun f => f ≠ CleanupFinalizer) } } } := by
    unfold reconcileDeletion
    rw [hns]
    simp only [hd, if_true]
    rw [removeFinalizer_removes env vc hfin hupd]
    simp
  rw [hout]
  exact ⟨rfl, rfl, rfl, by simp, by simp⟩

/-- Witness for C7 on a concrete terminating namespace. -/
theorem reconcileDeletion_namespace_terminating_witness :
    (reconcileDeletion c7Env delVC).err = none ∧
    (reconcileDeletion c7Env delVC).events = [DelEvent.finalizerUpdateCall] ∧
    (reconcileDeletion c7Env delVC).vc =
      { delVC with metadata := { delVC.metadata with
          finalizers := delVC.metadata.finalizers.filter
            (fun f => f ≠ CleanupFinalizer) } } ∧
    DelEvent.helmDeleteCall ∉ (reconcileDeletion c7Env delVC).events ∧
    DelEvent.pvcDeleteCall ∉ (reconcileDeletion c7Env delVC).events :=
  reconcileDeletion_namespace_terminating c7Env delVC { deleting := true }
    rfl rfl (by decide) rfl

/-- C10: if the namespace Get fails with any error (not-found or a
transient API error), the deletion pass returns success with no
requeue, no invoked operation and an untouched resource. -/
theorem reconcileDeletion_namespace_get_error (env : DeletionEnv) (vc : VCluster)
    (h : env.namespaceGet = GetResult.notFound ∨
      ∃ m, env.namespaceGet = GetResult.otherError m) :
    reconcileDeletion env vc =
      { err := none, requeueAfterSeconds := 0, events := [], vc := vc } := by
  unfold reconcileDeletion
  rcases h with h | ⟨m, h⟩ <;> rw [h]

/-- Witness for C10 on a concrete transient namespace Get failure. -/
theorem reconcileDeletion_namespace_get_error_witness :
    reconcileDeletion c10Env delVC =
      { err := none, requeueAfterSeconds := 0, events := [], vc := delVC } :=
  reconcileDeletion_namespace_get_error c10Env delVC
    (Or.inr ⟨"connection refused", rfl⟩)

/-- A well-formed bootstrap secret loads to its parsed document. -/
theorem getVClusterKubeConfig_ok (env : SyncEnv) (kc : KubeConfig)
    (hsec : env.vcSecret = GetResult.ok { hasConfigKey := true, parsed := some kc }) :
    getVClusterKubeConfig env = Except.ok kc := by
  unfold getVClusterKubeConfig
  rw [hsec]
  simp

/-- Credential extraction succeeds on a well-formed bootstrap secret
holding a qualifying auth-info. -/
theorem getVClusterCredentials_ok (env : SyncEnv) (kc : KubeConfig) (a : AuthInfo)
    (hsec : env.vcSecret = GetResult.ok { hasConfigKey := true, parsed := some kc })
    (hauth : kc.authInfos.find?
      (fun x => x.clientKeyData.isSome && x.clientCertificateData.isSome) = some a) :
    getVClusterCredentials env =
      Except.ok (a.clientCertificateData.getD "", a.clientKeyData.getD "") := by
  unfold getVClusterCredentials
  rw [getVClusterKubeConfig_ok env kc hsec]
  simp [hauth]

/-- A document with other than exactly one cluster entry fails the
sync with the unexpected-kube-config error and writes nothing. -/
theorem syncFromKubeConfig_multi (env : SyncEnv) (vc2 : VCluster) (kc : KubeConfig)
    (hsec : env.vcSecret = GetResult.ok { hasConfigKey := true, parsed := some kc })
    (hlen : kc.clusters.length ≠ 1) :
    syncFromKubeConfig env vc2 =
      { err := some "unexpected kube config", vc := vc2, secretWrites := [] } := by
  unfold syncFromKubeConfig
  rw [getVClusterKubeConfig_ok env kc hsec]
  simp only
  rw [if_pos hlen]

/-- With a single-cluster document, a spec-set host and a succeeding
kubeconfig-secret upsert, the first secret written by the sync tail is
the kubeconfig secret holding the rewritten document. -/
theorem syncFromKubeConfig_writes (env : SyncEnv) (vc2 : VCluster)
    (kc : KubeConfig) (entry : ClusterEntry)
    (hsec : env.vcSecret = GetResult.ok { hasConfigKey := true, parsed := some kc })
    (hclusters : kc.clusters = [entry])
    (hhost : vc2.spec.controlPlaneEndpoint.host ≠ "")
    (hwrite : env.kubeSecretWrite = none)
    (hkind : env.clusterKindExists = false) :
    (syncFromKubeConfig env vc2).secretWrites.head? =
      some (SecretWrite.kubeconfig (vc2.metadata.name ++ "-kubeconfig")
        { clusters :=
            [{ entry with
                server := rewriteServer vc2.spec.controlPlaneEndpoint.host
                            vc2.spec.controlPlaneEndpoint.port entry.server }],
          authInfos := kc.authInfos }) := by
  unfold syncFromKubeConfig
  rw [getVClusterKubeConfig_ok env kc hsec]
  simp only
  rw [if_neg (by rw [hclusters]; simp), if_neg hhost]
  unfold syncWriteSecrets
  rw [hwrite]
  have hname : logicalClusterName env vc2 = vc2.metadata.name := by
    unfold logicalClusterName
    rw [hkind]
    simp
  rw [hclusters, hname]
  cases env.certsSecretGet with
  | notFound => rfl
  | otherError m => rfl
  | ok certsData =>
    cases env.caSecretWrite with
    | none => rfl
    | some m => rfl

/-- C8: with a single-cluster bootstrap document and a resolved
non-empty host, the sync step writes a kubeconfig secret whose cluster
entry's server is exactly https host colon port (port 443 when the
spec port is unset; the https scheme added since the value lacks it),
with the document's auth-infos unchanged. -/
theorem syncKubeconfig_rewrites_server (env : SyncEnv) (vc : VCluster)
    (kc : KubeConfig) (entry : ClusterEntry) (a : AuthInfo)
    (hsec : env.vcSecret = GetResult.ok { hasConfigKey := true, parsed := some kc })
    (hauth : kc.authInfos.find?
      (fun x => x.clientKeyData.isSome && x.clientCertificateData.isSome) = some a)
    (hprobe : env.probeResult = none)
    (hclusters : kc.clusters = [entry])
    (hhost : vc.spec.controlPlaneEndpoint.host ≠ "")
    (hwrite : env.kubeSecretWrite = none)
    (hkind : env.clusterKindExists = false)
    (hnp : ¬ (hasHttpsScheme
      (vc.spec.controlPlaneEndpoint.host ++ ":" ++
        toString (if vc.spec.controlPlaneEndpoint.port ≠ 0 then
          vc.spec.controlPlaneEndpoint.port else DefaultControlPlanePort)) = true)) :
    (syncVClusterKubeconfig env vc).secretWrites.head? =
      some (SecretWrite.kubeconfig (vc.metadata.name ++ "-kubeconfig")
        { clusters :=
            [{ entry with
                server := "https://" ++ (vc.spec.controlPlaneEndpoint.host ++ ":" ++
                            toString (if vc.spec.controlPlaneEndpoint.port ≠ 0 then
                              vc.spec.controlPlaneEndpoint.port
                            else DefaultControlPlanePort)) }],
          authInfos := kc.authInfos }) := by
  have hrw : ∀ s, rewriteServer vc.spec.controlPlaneEndpoint.host
      vc.spec.controlPlaneEndpoint.port s =
      "https://" ++ (vc.spec.controlPlaneEndpoint.host ++ ":" ++
        toString (if vc.spec.controlPlaneEndpoint.port ≠ 0 then
          vc.spec.controlPlaneEndpoint.port else DefaultControlPlanePort)) := by
    intro s
    unfold rewriteServer
    by_cases hp : vc.spec.controlPlaneEndpoint.port ≠ 0
    · rw [if_pos hp] at hnp ⊢
      simp only [if_pos hhost, if_pos hp]
      rw [if_neg hnp]
    · rw [if_neg hp] at hnp ⊢
      simp only [if_pos hhost, if_neg hp]
      rw [if_neg hnp]
  unfold syncVClusterKubeconfig
  rw [getVClusterCredentials_ok env kc a hsec hauth]
  simp only
  cases hcpi : conditionsIsTrue vc.status.conditions ControlPlaneInitializedCondition with
  | true =>
    rw [if_pos rfl]
    have h2 : (syncFromKubeConfig env (setInitialized vc)).secretWrites.head? =
        some (SecretWrite.kubeconfig (vc.metadata.name ++ "-kubeconfig")
          { clusters :=
              [{ entry with
                  server := rewriteServer vc.spec.controlPlaneEndpoint.host
                              vc.spec.controlPlaneEndpoint.port entry.server }],
            authInfos := kc.authInfos }) :=
      syncFromKubeConfig_writes env (setInitialized vc) kc entry hsec
        hclusters hhost hwrite hkind
    rw [h2, hrw entry.server]
  | false =>
    rw [if_neg (by simp)]
    rw [hprobe]
    have h2 : (syncFromKubeConfig env
          (setInitialized (vcMarkTrue vc ControlPlaneInitializedCondition))).secretWrites.head? =
        some (SecretWrite.kubeconfig (vc.metadata.name ++ "-kubeconfig")
          { clusters :=
              [{ entry with
                  server := rewriteServer vc.spec.controlPlaneEndpoint.host
                              vc.spec.controlPlaneEndpoint.port entry.server }],
            authInfos := kc.authInfos }) :=
      syncFromKubeConfig_writes env
        (setInitialized (vcMarkTrue vc ControlPlaneInitializedCondition)) kc entry hsec
        hclusters hhost hwrite hkind
    rw [h2, hrw entry.server]

/-- C9: a bootstrap document with other than exactly one cluster entry
makes the sync step fail with the unexpected-kube-config error rather
than picking one entry; and regardless of how the earlier steps fare,
no kubeconfig secret is written for such a document. -/
theorem syncKubeconfig_multi_cluster_rejected :
    (∀ (env : SyncEnv) (vc : VCluster) (kc : KubeConfig) (a : AuthInfo),
      env.vcSecret = GetResult.ok { hasConfigKey := true, parsed := some kc } →
      kc.authInfos.find?
        (fun x => x.clientKeyData.isSome && x.clientCertificateData.isSome) = some a →
      env.probeResult = none →
      kc.clusters.length ≠ 1 →
      (syncVClusterKubeconfig env vc).err = some "unexpected kube config" ∧
      (syncVClusterKubeconfig env vc).secretWrites = []) ∧
    (∀ (env : SyncEnv) (vc : VCluster) (kc : KubeConfig),
      env.vcSecret = GetResult.ok { hasConfigKey := true, parsed := some kc } →
      kc.clusters.length ≠ 1 →
      (syncVClusterKubeconfig env vc).secretWrites = []) := by
  constructor
  · intro env vc kc a hsec hauth hprobe hlen
    unfold syncVClusterKubeconfig
    rw [getVClusterCredentials_ok env kc a hsec hauth]
    simp only
    cases hcpi : conditionsIsTrue vc.status.conditions ControlPlaneInitializedCondition with
    | true =>
      rw [if_pos rfl, syncFromKubeConfig_multi env _ kc hsec hlen]
      exact ⟨rfl, rfl⟩
    | false =>
      rw [if_neg (by simp), hprobe, syncFromKubeConfig_multi env _ kc hsec hlen]
      exact ⟨rfl, rfl⟩
  · intro env vc kc hsec hlen
    unfold syncVClusterKubeconfig
    cases hcred : getVClusterCredentials env with
    | error m => rfl
    | ok cred =>
      simp only
      cases hcpi : conditionsIsTrue vc.status.conditions ControlPlaneInitializedCondition with
      | true =>
        rw [if_pos rfl, syncFromKubeConfig_multi env _ kc hsec hlen]
      | false =>
        rw [if_neg (by simp)]
        cases env.probeResult with
        | some m => rfl
        | none => rw [syncFromKubeConfig_multi env _ kc hsec hlen]

/-- Witness for C8 on the spec's worked example: source server
https 10.0.0.5 port 443, resolved endpoint vcluster.example.com port
8443; the produced document's single cluster entry has server exactly
https vcluster.example.com 8443 with the auth-info untouched. -/
theorem syncKubeconfig_rewrites_server_witness :
    (syncVClusterKubeconfig c8Env c8VC).secretWrites.head? =
      some (SecretWrite.kubeconfig "test-vcluster-kubeconfig"
        { clusters :=
            [{ name := "kubeconfig-cluster",
               server := "https://vcluster.example.com:8443",
               certificateAuthority := "test.crt" }],
          authInfos := [c8Auth] }) :=
  (syncKubeconfig_rewrites_server c8Env c8VC c8Doc c8Entry c8Auth
    rfl rfl rfl rfl (by decide) rfl rfl (by decide)).trans (by decide)

/-- Witness for C9 on a concrete two-cluster document: the sync fails
with the unexpected-kube-config error and writes no secret. -/
theorem syncKubeconfig_multi_cluster_rejected_witness :
    ((syncVClusterKubeconfig c9Env c8VC).err = some "unexpected kube config" ∧
      (syncVClusterKubeconfig c9Env c8VC).secretWrites = []) ∧
    (syncVClusterKubeconfig c9Env c8VC).secretWrites = [] :=
  ⟨syncKubeconfig_multi_cluster_rejected.1 c9Env c8VC c9Doc c8Auth
      rfl rfl rfl (by decide),
    syncKubeconfig_multi_cluster_rejected.2 c9Env c8VC c9Doc rfl (by decide)⟩

end CAPVC
